import Mathlib

set_option maxRecDepth 8192

/-!
Shallow embedding of `src/mcp_server/server.py` (spending tracker MCP server).

Python strings are modelled as Lean `String`/`List Char`; Python `float`
values are modelled by `PyFloat`: exact rationals plus signed infinity and
NaN, with IEEE-754 underflow to zero and overflow to infinity applied
exactly at the thresholds where CPython's correctly-rounded `float()`
crosses them; in between the exact value is kept, which agrees with the
double in sign — and the program only ever compares the float with zero.
`str.upper`, `str.strip` and `float()` parsing are modelled on the
ASCII / Latin-1 repertoire, which covers every table key and every input the
program's closed label tables mention.  External collaborators (the Google
Sheets service and the clock) are oracles supplied in an `Env`; the calls
the program makes to the sheets service are recorded in an effect trace.
-/

/-- Characters treated as whitespace by Python's `str.strip()` and by
`float()` (ASCII / Latin-1 portion). -/
def isPySpace (c : Char) : Bool :=
  c = ' ' || c = '\t' || c = '\n' || c = '\r' || c = '\x0b' || c = '\x0c' ||
  c = '\x1c' || c = '\x1d' || c = '\x1e' || c = '\x1f' || c = '\x85' || c = '\xa0'

/-- Python `s.strip()` with no argument: remove leading and trailing whitespace. -/
def pyStrip (s : String) : String :=
  ⟨((s.toList.dropWhile isPySpace).reverse.dropWhile isPySpace).reverse⟩

/-- Python `a or b` on strings: `b` exactly when `a` is the empty (falsy) string. -/
def pyOr (a b : String) : String :=
  if a = "" then b else a

/-- Python `str.upper()` on one character, exact on ASCII and Latin-1
(`'ß'` expands to `"SS"`, `'ÿ'` maps to `'Ÿ'`, `'µ'` to `'Μ'`); characters
outside that repertoire are left unchanged. -/
def pyUpperChar (c : Char) : List Char :=
  let n := c.toNat
  if 97 ≤ n ∧ n ≤ 122 then [Char.ofNat (n - 32)]
  else if n = 0xB5 then [Char.ofNat 0x39C]
  else if n = 0xDF then ['S', 'S']
  else if (0xE0 ≤ n ∧ n ≤ 0xF6) ∨ (0xF8 ≤ n ∧ n ≤ 0xFE) then [Char.ofNat (n - 32)]
  else if n = 0xFF then [Char.ofNat 0x178]
  else [c]

/-- Python `s.upper()`. -/
def pyUpper (s : String) : String :=
  ⟨s.toList.flatMap pyUpperChar⟩

/-- Python `s.replace(a, b)` for one-character patterns. -/
def pyReplaceChar (s : String) (a b : Char) : String :=
  ⟨s.toList.map (fun c => if c = a then b else c)⟩

/-- ASCII lowercasing, used for the case-insensitive `inf`/`nan` match in
`float()`. -/
def lowerAscii (c : Char) : Char :=
  if 'A' ≤ c ∧ c ≤ 'Z' then Char.ofNat (c.toNat + 32) else c

/-- The value of a Python `float`: a finite value (exact value of the
decimal literal, kept as integer numerator `n` and power-of-ten denominator
`10 ^ p`), a signed infinity (`true` = negative), or NaN. -/
inductive PyFloat where
  | finite : ℤ → ℕ → PyFloat
  | infinity : Bool → PyFloat
  | nan : PyFloat
deriving DecidableEq

/-- Python `x <= 0` on a float: `False` for NaN and `+inf`, `True` for
`-inf`, the numeric comparison otherwise (`n / 10 ^ p ≤ 0` iff `n ≤ 0`). -/
def PyFloat.leZero : PyFloat → Bool
  | .finite n _ => decide (n ≤ 0)
  | .infinity neg => neg
  | .nan => false

/-- A run made of digits and underscores matches Python's
`digit (["_"] digit)*` iff no underscore is last or doubled. -/
def digitRunOk : List Char → Bool
  | [] => true
  | ['_'] => false
  | '_' :: '_' :: _ => false
  | '_' :: rest => digitRunOk rest
  | _ :: rest => digitRunOk rest

/-- A valid Python `digitpart`: nonempty, starts with a digit, underscores
only between digits. -/
def validDigitpart (l : List Char) : Bool :=
  match l with
  | [] => false
  | c :: _ => c.isDigit && digitRunOk l

/-- The digits of a digitpart, underscores removed. -/
def digitsOf (l : List Char) : List Char := l.filter Char.isDigit

/-- Numeric value of a digitpart. -/
def digitsVal (l : List Char) : ℕ :=
  (digitsOf l).foldl (fun a c => a * 10 + (c.toNat - 48)) 0

/-- Member of a digitpart span: digit or underscore. -/
def isDigitU (c : Char) : Bool := c.isDigit || c = '_'

/-- Parse the optional exponent suffix of a Python float literal and apply
it to the mantissa `m / 10 ^ d`; the whole remaining input must be
consumed.  The result stays in numerator / power-of-ten form. -/
def parseExpPart (l : List Char) (m : ℕ) (d : ℕ) : Option (ℕ × ℕ) :=
  match l with
  | [] => some (m, d)
  | c :: r1 =>
    if c = 'e' ∨ c = 'E' then
      let (sgn, r2) :=
        match r1 with
        | '+' :: t => (false, t)
        | '-' :: t => (true, t)
        | t => (false, t)
      let (epart, r3) := r2.span isDigitU
      if r3 = [] ∧ validDigitpart epart then
        some (if sgn then (m, d + digitsVal epart) else (m * 10 ^ digitsVal epart, d))
      else none
    else none

/-- Parse an unsigned Python float literal (`floatnumber` grammar:
`(digitpart | pointfloat) [exponent]`), consuming all of `l`; the result
`(m, d)` stands for the value `m / 10 ^ d`. -/
def parseNumber (l : List Char) : Option (ℕ × ℕ) :=
  let (ipart, r1) := l.span isDigitU
  if ipart ≠ [] ∧ ¬ validDigitpart ipart then none
  else
    match r1 with
    | '.' :: r2 =>
      let (fpart, r3) := r2.span isDigitU
      if fpart ≠ [] ∧ ¬ validDigitpart fpart then none
      else if ipart = [] ∧ fpart = [] then none
      else
        parseExpPart r3
          (digitsVal ipart * 10 ^ (digitsOf fpart).length + digitsVal fpart)
          (digitsOf fpart).length
    | _ =>
      if ipart = [] then none else parseExpPart r1 (digitsVal ipart) 0

/-- Python `float(s)`: strip whitespace, optional sign, then a
case-insensitive `inf`/`infinity`/`nan` or a decimal literal; `none` models
the `ValueError`.  The literal's exact value `m / 10 ^ d` is then subjected
to IEEE-754 double rounding at the two places where rounding can change the
outcome of a comparison with zero: a magnitude at or below `2 ^ (-1075)`
(half the smallest subnormal; the tie rounds to the even mantissa, zero)
underflows to `±0.0`, modelled as `finite 0 d`, and a magnitude at or above
`2 ^ 1024 - 2 ^ 970` (the halfway point above the largest finite double,
which rounds up) overflows to the signed infinity, as CPython's `strtod`
does.  Between the two thresholds the exact value is kept: rounding there
is sign- and zero-preserving, and the program compares the float only with
0 (`amt_float <= 0`) and otherwise discards it, so no behaviour depends on
the rounded mantissa. -/
def parsePyFloat (s : String) : Option PyFloat :=
  let l := ((s.toList.dropWhile isPySpace).reverse.dropWhile isPySpace).reverse
  let (neg, l2) :=
    match l with
    | '+' :: t => (false, t)
    | '-' :: t => (true, t)
    | t => (false, t)
  let low := l2.map lowerAscii
  if low = "inf".toList ∨ low = "infinity".toList then some (.infinity neg)
  else if low = "nan".toList then some .nan
  else
    match parseNumber l2 with
    | some (m, d) =>
      if m * 2 ^ 1075 ≤ 10 ^ d then some (.finite 0 d)
      else if (2 ^ 1024 - 2 ^ 970) * 10 ^ d ≤ m then some (.infinity neg)
      else some (.finite (if neg then -(m : ℤ) else (m : ℤ)) d)
    | none => none


/-! ### MD5 (`hashlib.md5`) over byte lists -/

/-- The 64 per-round shift amounts of MD5. -/
def md5S : List ℕ :=
  [7, 12, 17, 22, 7, 12, 17, 22, 7, 12, 17, 22, 7, 12, 17, 22,
   5, 9, 14, 20, 5, 9, 14, 20, 5, 9, 14, 20, 5, 9, 14, 20,
   4, 11, 16, 23, 4, 11, 16, 23, 4, 11, 16, 23, 4, 11, 16, 23,
   6, 10, 15, 21, 6, 10, 15, 21, 6, 10, 15, 21, 6, 10, 15, 21]

/-- The 64 sine-derived additive constants of MD5. -/
def md5K : List ℕ :=
  [3614090360, 3905402710, 606105819, 3250441966, 4118548399, 1200080426, 2821735955, 4249261313,
   1770035416, 2336552879, 4294925233, 2304563134, 1804603682, 4254626195, 2792965006, 1236535329,
   4129170786, 3225465664, 643717713, 3921069994, 3593408605, 38016083, 3634488961, 3889429448,
   568446438, 3275163606, 4107603335, 1163531501, 2850285829, 4243563512, 1735328473, 2368359562,
   4294588738, 2272392833, 1839030562, 4259657740, 2763975236, 1272893353, 4139469664, 3200236656,
   681279174, 3936430074, 3572445317, 76029189, 3654602809, 3873151461, 530742520, 3299628645,
   4096336452, 1126891415, 2878612391, 4237533241, 1700485571, 2399980690, 4293915773, 2240044497,
   1873313359, 4264355552, 2734768916, 1309151649, 4149444226, 3174756917, 718787259, 3951481745]

/-- Rotate a 32-bit word left by `s` bits. -/
def rotl32 (x s : ℕ) : ℕ :=
  ((x * 2 ^ s) % 4294967296) ||| (x / 2 ^ (32 - s))

/-- The MD5 round function `F`/`G`/`H`/`I` selected by the round index
(bitwise complement within 32 bits is `4294967295 - ·`). -/
def md5F (i b c d : ℕ) : ℕ :=
  if i < 16 then (b &&& c) ||| ((4294967295 - b) &&& d)
  else if i < 32 then (d &&& b) ||| ((4294967295 - d) &&& c)
  else if i < 48 then b ^^^ c ^^^ d
  else c ^^^ (b ||| (4294967295 - d))

/-- The message-word index used in round `i`. -/
def md5G (i : ℕ) : ℕ :=
  if i < 16 then i
  else if i < 32 then (5 * i + 1) % 16
  else if i < 48 then (3 * i + 5) % 16
  else (7 * i) % 16

/-- One MD5 round on the state `(a, b, c, d)` with message words `M`. -/
def md5Round (M : List ℕ) (st : ℕ × ℕ × ℕ × ℕ) (i : ℕ) : ℕ × ℕ × ℕ × ℕ :=
  let (a, b, c, d) := st
  let f := (md5F i b c d + a + md5K.getD i 0 + M.getD (md5G i) 0) % 4294967296
  (d, (b + rotl32 f (md5S.getD i 0)) % 4294967296, b, c)

/-- Process one 64-byte chunk: 16 little-endian words, 64 rounds, then add
the incoming state back in mod `2 ^ 32`. -/
def md5Chunk (st : ℕ × ℕ × ℕ × ℕ) (chunk : List ℕ) : ℕ × ℕ × ℕ × ℕ :=
  let M := (List.range 16).map (fun j =>
    chunk.getD (4 * j) 0 + 256 * chunk.getD (4 * j + 1) 0 +
    65536 * chunk.getD (4 * j + 2) 0 + 16777216 * chunk.getD (4 * j + 3) 0)
  let (a, b, c, d) := (List.range 64).foldl (md5Round M) st
  let (a0, b0, c0, d0) := st
  ((a0 + a) % 4294967296, (b0 + b) % 4294967296,
   (c0 + c) % 4294967296, (d0 + d) % 4294967296)

/-- Little-endian byte expansion of a 64-bit length field. -/
def le64 (n : ℕ) : List ℕ :=
  (List.range 8).map (fun i => n / 2 ^ (8 * i) % 256)

/-- Little-endian byte expansion of a 32-bit state word. -/
def le32 (n : ℕ) : List ℕ :=
  [n % 256, n / 256 % 256, n / 65536 % 256, n / 16777216 % 256]

/-- MD5 padding: a `0x80` byte, zeros to 56 mod 64, then the bit length as
a little-endian 64-bit integer. -/
def md5Pad (msg : List ℕ) : List ℕ :=
  let k := (120 - ((msg.length + 1) % 64)) % 64
  msg ++ [128] ++ List.replicate k 0 ++ le64 ((8 * msg.length) % 2 ^ 64)

/-- Split a list into successive 64-element chunks (structural recursion on
a fuel argument so the kernel can evaluate it; each step consumes at least
one element, so `l.length` fuel always suffices). -/
def chunks64Go : ℕ → List ℕ → List (List ℕ)
  | 0, _ => []
  | _, [] => []
  | fuel + 1, c :: rest => ((c :: rest).take 64) :: chunks64Go fuel ((c :: rest).drop 64)

/-- Split a list into successive 64-element chunks. -/
def chunks64 (l : List ℕ) : List (List ℕ) :=
  chunks64Go l.length l

/-- The 16-byte MD5 digest of a byte list. -/
def md5Digest (msg : List ℕ) : List ℕ :=
  let st :=
    (chunks64 (md5Pad msg)).foldl md5Chunk (1732584193, 4023233417, 2562383102, 271733878)
  le32 st.1 ++ le32 st.2.1 ++ le32 st.2.2.1 ++ le32 st.2.2.2

/-- A value below 16 as a lowercase hexadecimal character. -/
def hexDigit (n : ℕ) : Char :=
  if n < 10 then Char.ofNat (48 + n) else Char.ofNat (87 + n)

/-- A byte as two lowercase hexadecimal characters, high nibble first. -/
def byteToHex (b : ℕ) : List Char :=
  [hexDigit (b / 16), hexDigit (b % 16)]

/-- `hashlib.md5(bytes).hexdigest()`: the 32 lowercase hex characters of
the digest. -/
def md5Hex (msg : List ℕ) : List Char :=
  (md5Digest msg).flatMap byteToHex

/-- UTF-8 encoding of one character (Python `str.encode()`). -/
def utf8Char (c : Char) : List ℕ :=
  let n := c.toNat
  if n < 128 then [n]
  else if n < 2048 then [192 + n / 64, 128 + n % 64]
  else if n < 65536 then [224 + n / 4096, 128 + n / 64 % 64, 128 + n % 64]
  else [240 + n / 262144, 128 + n / 4096 % 64, 128 + n / 64 % 64, 128 + n % 64]

/-- UTF-8 encoding of a string (Python `s.encode()`). -/
def utf8 (s : String) : List ℕ :=
  s.toList.flatMap utf8Char

/-- Source `generate_receipt_id` (server.py lines 46-49): concatenate the
three arguments, MD5 the UTF-8 bytes, keep the first 8 hex characters,
uppercase them. -/
def generate_receipt_id (description amount timestamp : String) : String :=
  let combined := description ++ amount ++ timestamp
  pyUpper ⟨(md5Hex (utf8 combined)).take 8⟩


/-! ### Enums and the tax table -/

/-- Source `class PaymentMethod(str, Enum)` (server.py lines 19-26). -/
inductive PaymentMethod where
  | EFECTIVO
  | TARJETA_CREDITO
  | TARJETA_DEBITO
  | TRANSFERENCIA
  | BILLETERA_DIGITAL
  | OTRO
deriving DecidableEq

/-- The display value of each `PaymentMethod` member. -/
def PaymentMethod.value : PaymentMethod → String
  | .EFECTIVO => "Efectivo"
  | .TARJETA_CREDITO => "Tarjeta Crédito"
  | .TARJETA_DEBITO => "Tarjeta Débito"
  | .TRANSFERENCIA => "Transferencia"
  | .BILLETERA_DIGITAL => "Billetera Digital"
  | .OTRO => "Otro"

/-- Python `PaymentMethod[name]`: lookup by member name; `none` models the
`KeyError`. -/
def PaymentMethod.fromName (n : String) : Option PaymentMethod :=
  if n = "EFECTIVO" then some .EFECTIVO
  else if n = "TARJETA_CREDITO" then some .TARJETA_CREDITO
  else if n = "TARJETA_DEBITO" then some .TARJETA_DEBITO
  else if n = "TRANSFERENCIA" then some .TRANSFERENCIA
  else if n = "BILLETERA_DIGITAL" then some .BILLETERA_DIGITAL
  else if n = "OTRO" then some .OTRO
  else none

/-- Source `class ExpenseStatus(str, Enum)` (server.py lines 28-33). -/
inductive ExpenseStatus where
  | PENDIENTE
  | CONFIRMADO
  | REEMBOLSABLE
  | IMPUTABLE
deriving DecidableEq

/-- The display value of each `ExpenseStatus` member. -/
def ExpenseStatus.value : ExpenseStatus → String
  | .PENDIENTE => "Pendiente"
  | .CONFIRMADO => "Confirmado"
  | .REEMBOLSABLE => "Reembolsable"
  | .IMPUTABLE => "Imputable"

/-- Python `ExpenseStatus[name]`: lookup by member name; `none` models the
`KeyError`. -/
def ExpenseStatus.fromName (n : String) : Option ExpenseStatus :=
  if n = "PENDIENTE" then some .PENDIENTE
  else if n = "CONFIRMADO" then some .CONFIRMADO
  else if n = "REEMBOLSABLE" then some .REEMBOLSABLE
  else if n = "IMPUTABLE" then some .IMPUTABLE
  else none

/-- The normalisation the source applies before each enum lookup:
`raw.upper().replace(" ", "_")` (server.py lines 123 and 129). -/
def enumKey (raw : String) : String :=
  pyReplaceChar (pyUpper raw) ' ' '_'

/-- Source `tax_deductible` table (server.py lines 53-63). -/
def tax_deductible : List (String × Bool) :=
  [("Alimentación", false), ("Transporte", true), ("Servicios", true),
   ("Salud", true), ("Educación", true), ("Oficina", true),
   ("Tecnología", true), ("Viaje", true), ("General", false)]

/-- Source `calculate_tax_category` (server.py lines 51-64):
`"Sí" if tax_deductible.get(category, False) else "No"`.  The `amount`
parameter is accepted and unused, as in the source. -/
def calculate_tax_category (amount : PyFloat) (category : String) : String :=
  if (tax_deductible.lookup category).getD false then "Sí" else "No"


/-! ### The service boundary: environment oracle, effects, `add_expense` -/

/-- One call to the external Google Sheets collaborator, as recorded in the
trace: the spreadsheet-metadata read issued by `first_sheet_title`, or the
row append (`spreadsheets().values().append`) with its spreadsheet id,
range and row. -/
inductive Effect where
  | getSpreadsheetMeta : String → Effect
  | appendRow : String → String → List String → Effect
deriving DecidableEq

/-- Oracle for everything outside the program: the `GSHEETS_DEFAULT_SPREADSHEET_ID`
environment variable, the UTC+7 clock captured at line 101 (`%Y-%m-%d`,
`%H:%M:%S` and `%B %Y` renderings), the titles of the spreadsheet's tabs as
returned by the metadata read (`.error` = the read raised), and the outcome
of the append call (`.error` = the append raised, carrying `str(e)`). -/
structure Env where
  defaultSpreadsheetId : String
  dateStr : String
  timeStr : String
  monthYear : String
  sheetTitles : String → Except String (List String)
  appendResult : String → String → List String → Except String Unit

/-- Source `first_sheet_title` (server.py lines 39-44): fetch the
spreadsheet metadata, raise `RuntimeError` when it has no tabs, otherwise
return the first tab's title.  `.error` models a raised exception. -/
def first_sheet_title (env : Env) (spreadsheet_id : String) : Except String String :=
  match env.sheetTitles spreadsheet_id with
  | .error e => .error e
  | .ok [] => .error "Spreadsheet has no sheets/tabs."
  | .ok (t :: _) => .ok t

/-- The body of `add_expense` after the sheet title is known (server.py
lines 99-170): clock capture, amount normalisation and validation, receipt
id, deductibility, enum lookups with fallback, row assembly, append. -/
def addExpenseBody (env : Env) (description amount category currency
    payment_method status notes : String) (sid title : String)
    (tr : List Effect) : Except String String × List Effect :=
  let date_str := env.dateStr
  let time_str := env.timeStr
  let month_year := env.monthYear
  let amt := pyReplaceChar (pyOr amount "") ',' '.'
  match parsePyFloat amt with
  | none => (.ok ("❌ Monto inválido: " ++ amt), tr)
  | some amt_float =>
    if amt_float.leZero then (.ok "❌ El monto debe ser mayor a 0", tr)
    else
      let receipt_id := generate_receipt_id description amt (date_str ++ time_str)
      let is_deductible := calculate_tax_category amt_float category
      let status_val := (ExpenseStatus.fromName (enumKey status)).getD .CONFIRMADO
      let payment_val := (PaymentMethod.fromName (enumKey payment_method)).getD .OTRO
      let values : List String :=
        [date_str, receipt_id, description, category, amt, currency,
         payment_val.value, is_deductible, status_val.value, time_str,
         notes, month_year]
      let rng := title ++ "!A1"
      let tr2 := tr ++ [Effect.appendRow sid rng values]
      match env.appendResult sid rng values with
      | .ok _ =>
        (.ok ("✅ GASTO REGISTRADO\n" ++
              "📋 Recibo: " ++ receipt_id ++ "\n" ++
              "📅 " ++ date_str ++ " " ++ time_str ++ "\n" ++
              "💰 " ++ amt ++ " " ++ currency ++ "\n" ++
              "📝 " ++ description ++ "\n" ++
              "🏷️  " ++ category ++ "\n" ++
              "💳 " ++ payment_val.value ++ "\n" ++
              "📊 Deducible: " ++ is_deductible ++ "\n" ++
              "📍 Estado: " ++ status_val.value), tr2)
      | .error e => (.ok ("❌ Error al registrar: " ++ e), tr2)

/-- Source `add_expense` (server.py lines 66-170).  Returns the value the
Python coroutine produces (`.ok` = the returned string, `.error` = an
exception that escaped the function) together with the trace of
collaborator calls made.  Note that the source resolves the sheet title
(line 97) before validating the amount, and outside any `try`. -/
def add_expense (env : Env) (description amount : String)
    (category : String := "General") (currency : String := "USD")
    (payment_method : String := "Tarjeta Crédito") (status : String := "Confirmado")
    (notes : String := "") (sheet_name : String := "") (spreadsheet_id : String := "") :
    Except String String × List Effect :=
  let sid := pyStrip (pyOr spreadsheet_id env.defaultSpreadsheetId)
  if sheet_name = "" then
    match first_sheet_title env sid with
    | .error e => (.error e, [Effect.getSpreadsheetMeta sid])
    | .ok title =>
      addExpenseBody env description amount category currency payment_method
        status notes sid title [Effect.getSpreadsheetMeta sid]
  else
    addExpenseBody env description amount category currency payment_method
      status notes sid sheet_name []

/-! ### Abbreviations mirroring inlined source expressions -/

/-- Line 105: `amt = (amount or "").replace(",", ".")`. -/
def amtOf (amount : String) : String :=
  pyReplaceChar (pyOr amount "") ',' '.'

/-- Line 96: `sid = (spreadsheet_id or DEFAULT_SPREADSHEET_ID).strip()`. -/
def sidOf (env : Env) (spreadsheet_id : String) : String :=
  pyStrip (pyOr spreadsheet_id env.defaultSpreadsheetId)

/-- The row the source assembles at lines 134-147, in column order A-L. -/
def rowOf (env : Env) (description category currency payment_method status notes amt : String)
    (amt_float : PyFloat) : List String :=
  [env.dateStr,
   generate_receipt_id description amt (env.dateStr ++ env.timeStr),
   description, category, amt, currency,
   ((PaymentMethod.fromName (enumKey payment_method)).getD .OTRO).value,
   calculate_tax_category amt_float category,
   ((ExpenseStatus.fromName (enumKey status)).getD .CONFIRMADO).value,
   env.timeStr, notes, env.monthYear]

/-- Whether a recorded collaborator call is the row append. -/
def Effect.isAppend : Effect → Bool
  | .appendRow _ _ _ => true
  | _ => false

/-- Number of append calls in a trace. -/
def countAppend (tr : List Effect) : ℕ :=
  (tr.filter Effect.isAppend).length

/-- A sheets-service oracle for concrete runs: default spreadsheet id
`SHEET-123`, a fixed clock, two tabs, appends succeed. -/
def envOk : Env where
  defaultSpreadsheetId := "SHEET-123"
  dateStr := "2024-01-01"
  timeStr := "09:00:00"
  monthYear := "January 2024"
  sheetTitles := fun _ => .ok ["Hoja 1", "Extra"]
  appendResult := fun _ _ _ => .ok ()

/-- An oracle for a spreadsheet without tabs (metadata read succeeds with
an empty sheet list, so `first_sheet_title` raises `RuntimeError`). -/
def envNoTabs : Env where
  defaultSpreadsheetId := "SHEET-123"
  dateStr := "2024-01-01"
  timeStr := "09:00:00"
  monthYear := "January 2024"
  sheetTitles := fun _ => .ok []
  appendResult := fun _ _ _ => .ok ()

/-! ### Helper lemmas -/

/-- The sixteen lowercase hexadecimal characters. -/
def lowerHexChars : List Char :=
  (List.range 16).map hexDigit

/-- A value below 16 as an uppercase hexadecimal character. -/
def hexUpperDigit (n : ℕ) : Char :=
  if n < 10 then Char.ofNat (48 + n) else Char.ofNat (55 + n)

/-- The sixteen uppercase hexadecimal characters. -/
def upperHexChars : List Char :=
  (List.range 16).map hexUpperDigit

theorem le32_lt (n : ℕ) : ∀ b ∈ le32 n, b < 256 := by
  intro b hb
  simp only [le32, List.mem_cons, List.not_mem_nil, or_false] at hb
  rcases hb with rfl | rfl | rfl | rfl <;> omega

theorem md5Digest_length (msg : List ℕ) : (md5Digest msg).length = 16 := by
  simp [md5Digest, le32]

theorem md5Digest_lt (msg : List ℕ) : ∀ b ∈ md5Digest msg, b < 256 := by
  intro b hb
  simp only [md5Digest, List.mem_append] at hb
  rcases hb with ((hb | hb) | hb) | hb
  all_goals exact le32_lt _ _ hb

theorem flatMap_byteToHex_length (l : List ℕ) : (l.flatMap byteToHex).length = 2 * l.length := by
  induction l with
  | nil => simp
  | cons b t ih => simp [byteToHex, ih]; omega

theorem md5Hex_length (msg : List ℕ) : (md5Hex msg).length = 32 := by
  show ((md5Digest msg).flatMap byteToHex).length = 32
  rw [flatMap_byteToHex_length, md5Digest_length]

theorem hexDigit_mem_lower : ∀ n < 16, hexDigit n ∈ lowerHexChars := by decide

theorem md5Hex_mem (msg : List ℕ) : ∀ c ∈ md5Hex msg, c ∈ lowerHexChars := by
  intro c hc
  simp only [md5Hex, List.mem_flatMap] at hc
  obtain ⟨b, hb, hcb⟩ := hc
  have hlt := md5Digest_lt msg b hb
  simp only [byteToHex, List.mem_cons, List.not_mem_nil, or_false] at hcb
  rcases hcb with rfl | rfl
  · exact hexDigit_mem_lower _ (by omega)
  · exact hexDigit_mem_lower _ (Nat.mod_lt _ (by norm_num))

theorem pyUpperChar_hex : ∀ c ∈ lowerHexChars, ∃ u ∈ upperHexChars, pyUpperChar c = [u] := by
  decide

theorem pyUpper_hex_length (l : List Char) (h : ∀ c ∈ l, c ∈ lowerHexChars) :
    (l.flatMap pyUpperChar).length = l.length := by
  induction l with
  | nil => simp
  | cons c t ih =>
    obtain ⟨u, _, hu⟩ := pyUpperChar_hex c (h c (by simp))
    simp [hu, ih (fun x hx => h x (by simp [hx]))]

theorem pyUpper_hex_mem (l : List Char) (h : ∀ c ∈ l, c ∈ lowerHexChars) :
    ∀ u ∈ l.flatMap pyUpperChar, u ∈ upperHexChars := by
  intro u hu
  simp only [List.mem_flatMap] at hu
  obtain ⟨c, hc, hcu⟩ := hu
  obtain ⟨u2, hu2, heq⟩ := pyUpperChar_hex c (h c hc)
  rw [heq] at hcu
  simp only [List.mem_cons, List.not_mem_nil, or_false] at hcu
  exact hcu ▸ hu2

/-- First character of a string concatenation whose left part is nonempty. -/
theorem head?_append_left (s t : String) (c : Char) (h : s.toList.head? = some c) :
    (s ++ t).toList.head? = some c := by
  show ((s ++ t).data).head? = some c
  rw [String.data_append]
  cases hd : s.data with
  | nil => rw [show s.toList = s.data from rfl, hd] at h; simp at h
  | cons a l =>
    rw [show s.toList = s.data from rfl, hd] at h
    simp at h
    simp [hd, h]

theorem addExpenseBody_parse_none (env : Env)
    (description amount category currency payment_method status notes sid title : String)
    (tr : List Effect) (h : parsePyFloat (amtOf amount) = none) :
    addExpenseBody env description amount category currency payment_method status notes
        sid title tr =
      (.ok ("❌ Monto inválido: " ++ amtOf amount), tr) := by
  rw [amtOf] at h
  simp [addExpenseBody, h, amtOf]

theorem addExpenseBody_leZero (env : Env)
    (description amount category currency payment_method status notes sid title : String)
    (tr : List Effect) (v : PyFloat)
    (h : parsePyFloat (amtOf amount) = some v) (hz : v.leZero = true) :
    addExpenseBody env description amount category currency payment_method status notes
        sid title tr =
      (.ok "❌ El monto debe ser mayor a 0", tr) := by
  rw [amtOf] at h
  simp [addExpenseBody, h, hz]

theorem addExpenseBody_proceed_trace (env : Env)
    (description amount category currency payment_method status notes sid title : String)
    (tr : List Effect) (v : PyFloat)
    (h : parsePyFloat (amtOf amount) = some v) (hz : v.leZero = false) :
    (addExpenseBody env description amount category currency payment_method status notes
        sid title tr).2 =
      tr ++ [Effect.appendRow sid (title ++ "!A1")
        (rowOf env description category currency payment_method status notes (amtOf amount) v)] := by
  rw [amtOf] at h
  simp only [addExpenseBody, h, hz, Bool.false_eq_true, if_false, rowOf, amtOf]
  split <;> rfl

theorem addExpenseBody_proceed_head (env : Env)
    (description amount category currency payment_method status notes sid title : String)
    (tr : List Effect) (v : PyFloat)
    (h : parsePyFloat (amtOf amount) = some v) (hz : v.leZero = false) :
    ∃ s, (addExpenseBody env description amount category currency payment_method status notes
        sid title tr).1 = .ok s ∧
      (s.toList.head? = some '✅' ∨ s.toList.head? = some '❌') := by
  rw [amtOf] at h
  simp only [addExpenseBody, h, hz, Bool.false_eq_true, if_false]
  split
  · refine ⟨_, rfl, Or.inl ?_⟩
    repeat' apply head?_append_left
    decide
  · exact ⟨_, rfl, Or.inr (head?_append_left _ _ _ (by decide))⟩

theorem addExpenseBody_trace_of_reject (env : Env)
    (description amount category currency payment_method status notes sid title : String)
    (tr : List Effect)
    (hrej : parsePyFloat (amtOf amount) = none ∨
      ∃ v, parsePyFloat (amtOf amount) = some v ∧ v.leZero = true) :
    (addExpenseBody env description amount category currency payment_method status notes
        sid title tr).2 = tr := by
  rcases hrej with h | ⟨v, h, hz⟩
  · rw [addExpenseBody_parse_none env description amount category currency payment_method
      status notes sid title tr h]
  · rw [addExpenseBody_leZero env description amount category currency payment_method
      status notes sid title tr v h hz]

theorem add_expense_cases (env : Env)
    (description amount category currency payment_method status notes sheet_name spreadsheet_id : String) :
    (sheet_name = "" ∧ ∃ e, first_sheet_title env (sidOf env spreadsheet_id) = .error e ∧
      add_expense env description amount category currency payment_method status notes
          sheet_name spreadsheet_id =
        (.error e, [Effect.getSpreadsheetMeta (sidOf env spreadsheet_id)])) ∨
    (sheet_name = "" ∧ ∃ t, first_sheet_title env (sidOf env spreadsheet_id) = .ok t ∧
      add_expense env description amount category currency payment_method status notes
          sheet_name spreadsheet_id =
        addExpenseBody env description amount category currency payment_method status notes
          (sidOf env spreadsheet_id) t [Effect.getSpreadsheetMeta (sidOf env spreadsheet_id)]) ∨
    (sheet_name ≠ "" ∧
      add_expense env description amount category currency payment_method status notes
          sheet_name spreadsheet_id =
        addExpenseBody env description amount category currency payment_method status notes
          (sidOf env spreadsheet_id) sheet_name []) := by
  by_cases hsn : sheet_name = ""
  · cases hft : first_sheet_title env (sidOf env spreadsheet_id) with
    | error e =>
      refine Or.inl ⟨hsn, e, rfl, ?_⟩
      simp only [sidOf] at hft ⊢
      simp [add_expense, hsn, hft]
    | ok t =>
      refine Or.inr (Or.inl ⟨hsn, t, rfl, ?_⟩)
      simp only [sidOf] at hft ⊢
      simp [add_expense, hsn, hft]
  · refine Or.inr (Or.inr ⟨hsn, ?_⟩)
    simp only [sidOf]
    simp [add_expense, hsn]

theorem add_expense_eq_body_of_title (env : Env)
    (description amount category currency payment_method status notes sheet_name spreadsheet_id : String)
    (htitle : sheet_name ≠ "" ∨
      ∃ t, first_sheet_title env (sidOf env spreadsheet_id) = .ok t) :
    ∃ sid title tr,
      add_expense env description amount category currency payment_method status notes
          sheet_name spreadsheet_id =
        addExpenseBody env description amount category currency payment_method status notes
          sid title tr ∧
      (∀ s rng row, Effect.appendRow s rng row ∉ tr) := by
  rcases add_expense_cases env description amount category currency payment_method status notes
      sheet_name spreadsheet_id with
    ⟨hsn, e, hft, heq⟩ | ⟨hsn, t, hft, heq⟩ | ⟨hsn, heq⟩
  · rcases htitle with h | ⟨t, ht⟩
    · exact absurd hsn h
    · rw [hft] at ht
      cases ht
  · exact ⟨_, _, _, heq, by simp⟩
  · exact ⟨_, _, _, heq, by simp⟩

theorem addExpenseBody_append_mem (env : Env)
    (description amount category currency payment_method status notes sid title : String)
    (tr : List Effect) (htr : ∀ s rng row, Effect.appendRow s rng row ∉ tr) :
    ∀ s rng row, Effect.appendRow s rng row ∈
        (addExpenseBody env description amount category currency payment_method status notes
          sid title tr).2 →
      ∃ v, parsePyFloat (amtOf amount) = some v ∧ v.leZero = false ∧
        row = rowOf env description category currency payment_method status notes
          (amtOf amount) v := by
  intro s rng row hm
  cases hparse : parsePyFloat (amtOf amount) with
  | none =>
    rw [addExpenseBody_parse_none env description amount category currency payment_method
      status notes sid title tr hparse] at hm
    exact absurd hm (htr s rng row)
  | some v =>
    cases hz : v.leZero with
    | true =>
      rw [addExpenseBody_leZero env description amount category currency payment_method
        status notes sid title tr v hparse hz] at hm
      exact absurd hm (htr s rng row)
    | false =>
      rw [addExpenseBody_proceed_trace env description amount category currency payment_method
        status notes sid title tr v hparse hz] at hm
      rcases List.mem_append.1 hm with hin | hin
      · exact absurd hin (htr s rng row)
      · simp only [List.mem_singleton] at hin
        injection hin with h1 h2 h3
        exact ⟨v, rfl, hz, h3⟩

theorem addExpenseBody_append_count (env : Env)
    (description amount category currency payment_method status notes sid title : String)
    (tr : List Effect) (htr : tr.filter Effect.isAppend = []) :
    countAppend (addExpenseBody env description amount category currency payment_method status
        notes sid title tr).2 ≤ 1 ∧
    (∀ s, (addExpenseBody env description amount category currency payment_method status
        notes sid title tr).1 = .ok s → s.toList.head? = some '✅' →
      countAppend (addExpenseBody env description amount category currency payment_method status
        notes sid title tr).2 = 1) ∧
    (∀ e, (addExpenseBody env description amount category currency payment_method status
        notes sid title tr).1 = .error e →
      countAppend (addExpenseBody env description amount category currency payment_method status
        notes sid title tr).2 = 0) := by
  have hcount0 : countAppend tr = 0 := by
    simp only [countAppend, htr, List.length_nil]
  cases hparse : parsePyFloat (amtOf amount) with
  | none =>
    rw [addExpenseBody_parse_none env description amount category currency payment_method
      status notes sid title tr hparse]
    refine ⟨by simp [hcount0], ?_, ?_⟩
    · intro s h hhead
      injection h with hs
      subst hs
      have hbad := head?_append_left "❌ Monto inválido: " (amtOf amount) '❌' (by decide)
      rw [hbad] at hhead
      exact absurd hhead (by decide)
    · intro e h
      cases h
  | some v =>
    cases hz : v.leZero with
    | true =>
      rw [addExpenseBody_leZero env description amount category currency payment_method
        status notes sid title tr v hparse hz]
      refine ⟨by simp [hcount0], ?_, ?_⟩
      · intro s h hhead
        injection h with hs
        subst hs
        exact absurd hhead (by decide)
      · intro e h
        cases h
    | false =>
      have htrace := addExpenseBody_proceed_trace env description amount category currency
        payment_method status notes sid title tr v hparse hz
      have hcount1 : countAppend (addExpenseBody env description amount category currency
          payment_method status notes sid title tr).2 = 1 := by
        rw [htrace]
        simp [countAppend, List.filter_append, htr, Effect.isAppend]
      obtain ⟨s0, hs0, _⟩ := addExpenseBody_proceed_head env description amount category
        currency payment_method status notes sid title tr v hparse hz
      refine ⟨by rw [hcount1], fun s h hhead => hcount1, ?_⟩
      intro e h
      rw [hs0] at h
      cases h

/-- C2 counterexample: with the (default) empty `sheet_name` and a rejected
amount `"0"`, `add_expense` returns the rejection string but has already
made a collaborator call — the spreadsheet-metadata read issued by
`first_sheet_title` at line 97, before amount validation — so "no
collaborator/network call of any kind is made before the rejection" is
false as stated. -/
theorem add_expense_rejection_still_calls_metadata :
    (add_expense envOk "Taxi" "0" "General" "USD" "Tarjeta Crédito" "Confirmado" "" "" "").1 =
      .ok "❌ El monto debe ser mayor a 0" ∧
    (add_expense envOk "Taxi" "0" "General" "USD" "Tarjeta Crédito" "Confirmado" "" "" "").2 =
      [Effect.getSpreadsheetMeta "SHEET-123"] :=
  ⟨rfl, by decide⟩

/-- C2 (amended): when amount validation rejects, no append call is made
and the receipt-id / row-building stage is never reached; moreover no
collaborator call at all is made when `sheet_name` is nonempty, while with
an empty `sheet_name` exactly the one first-sheet-title metadata read
(issued before validation) appears in the trace. -/
theorem add_expense_rejection_no_downstream (env : Env)
    (description amount category currency payment_method status notes sheet_name spreadsheet_id : String)
    (hrej : parsePyFloat (amtOf amount) = none ∨
      ∃ v, parsePyFloat (amtOf amount) = some v ∧ v.leZero = true) :
    countAppend (add_expense env description amount category currency payment_method status notes
        sheet_name spreadsheet_id).2 = 0 ∧
    (sheet_name ≠ "" → (add_expense env description amount category currency payment_method
        status notes sheet_name spreadsheet_id).2 = []) ∧
    (sheet_name = "" → (add_expense env description amount category currency payment_method
        status notes sheet_name spreadsheet_id).2 =
      [Effect.getSpreadsheetMeta (sidOf env spreadsheet_id)]) := by
  rcases add_expense_cases env description amount category currency payment_method status notes
      sheet_name spreadsheet_id with ⟨hsn, e, hft, heq⟩ | ⟨hsn, t, hft, heq⟩ | ⟨hsn, heq⟩
  · exact ⟨by rw [heq]; rfl, fun hne => absurd hsn hne, fun _ => by rw [heq]⟩
  · have htrace : (add_expense env description amount category currency payment_method status
        notes sheet_name spreadsheet_id).2 =
        [Effect.getSpreadsheetMeta (sidOf env spreadsheet_id)] := by
      rw [heq, addExpenseBody_trace_of_reject env description amount category currency
        payment_method status notes (sidOf env spreadsheet_id) t _ hrej]
    exact ⟨by rw [htrace]; rfl, fun hne => absurd hsn hne, fun _ => htrace⟩
  · have htrace : (add_expense env description amount category currency payment_method status
        notes sheet_name spreadsheet_id).2 = [] := by
      rw [heq, addExpenseBody_trace_of_reject env description amount category currency
        payment_method status notes (sidOf env spreadsheet_id) sheet_name [] hrej]
    exact ⟨by rw [htrace]; rfl, fun _ => htrace, fun h => absurd h hsn⟩

theorem add_expense_rejection_no_downstream_witness :
    countAppend (add_expense envOk "Taxi" "0" "General" "USD" "Tarjeta Crédito" "Confirmado"
        "" "Gastos" "").2 = 0 ∧
    (add_expense envOk "Taxi" "0" "General" "USD" "Tarjeta Crédito" "Confirmado"
        "" "Gastos" "").2 = [] :=
  have h := add_expense_rejection_no_downstream envOk "Taxi" "0" "General" "USD"
    "Tarjeta Crédito" "Confirmado" "" "Gastos" ""
    (Or.inr ⟨.finite 0 0, by decide, by decide⟩)
  ⟨h.1, h.2.1 (by decide)⟩

/-- C3: `generate_receipt_id` is the pure function that concatenates
description, amount text and timestamp key, takes the MD5 digest of the
UTF-8 bytes, keeps the first 8 hexadecimal characters and uppercases them;
it is deterministic in its three inputs, every token is an 8-character
string over the uppercase hexadecimal alphabet, and the two spot-check
inputs differing only in the final second yield different tokens. -/
theorem generate_receipt_id_spec :
    (∀ d a t, generate_receipt_id d a t =
      pyUpper ⟨(md5Hex (utf8 (d ++ a ++ t))).take 8⟩) ∧
    (∀ d a t d2 a2 t2, d = d2 → a = a2 → t = t2 →
      generate_receipt_id d a t = generate_receipt_id d2 a2 t2) ∧
    (∀ d a t, (generate_receipt_id d a t).length = 8) ∧
    (∀ d a t, ∀ c ∈ (generate_receipt_id d a t).toList, c ∈ upperHexChars) ∧
    generate_receipt_id "Coffee" "3.50" "2024-01-0109:00:00" = "188EF754" ∧
    generate_receipt_id "Coffee" "3.50" "2024-01-0109:00:01" = "9C4A7E8C" ∧
    generate_receipt_id "Coffee" "3.50" "2024-01-0109:00:00" ≠
      generate_receipt_id "Coffee" "3.50" "2024-01-0109:00:01" := by
  refine ⟨fun d a t => rfl, ?_, ?_, ?_, by decide, by decide, by decide⟩
  · intro d a t d2 a2 t2 hd ha ht
    subst hd; subst ha; subst ht
    rfl
  · intro d a t
    have hmem : ∀ c ∈ (md5Hex (utf8 (d ++ a ++ t))).take 8, c ∈ lowerHexChars :=
      fun c hc => md5Hex_mem _ c (List.take_subset _ _ hc)
    show ((md5Hex (utf8 (d ++ a ++ t))).take 8 |>.flatMap pyUpperChar).length = 8
    rw [pyUpper_hex_length _ hmem, List.length_take, md5Hex_length]
    decide
  · intro d a t
    have hmem : ∀ c ∈ (md5Hex (utf8 (d ++ a ++ t))).take 8, c ∈ lowerHexChars :=
      fun c hc => md5Hex_mem _ c (List.take_subset _ _ hc)
    show ∀ c ∈ (md5Hex (utf8 (d ++ a ++ t))).take 8 |>.flatMap pyUpperChar, c ∈ upperHexChars
    exact pyUpper_hex_mem _ hmem

theorem generate_receipt_id_spec_witness :
    generate_receipt_id "Taxi" "12.50" "2024-01-0109:00:00" =
      generate_receipt_id "Taxi" "12.50" "2024-01-0109:00:00" :=
  generate_receipt_id_spec.2.1 "Taxi" "12.50" "2024-01-0109:00:00"
    "Taxi" "12.50" "2024-01-0109:00:00" rfl rfl rfl

/-- C4 counterexample: with an empty `sheet_name`, the `RuntimeError`
raised by `first_sheet_title` for a spreadsheet without tabs escapes
`add_expense` uncaught (the call at line 97 sits outside every `try`), so
"every error arising inside a call to add_expense is caught at the call
boundary" is false as stated. -/
theorem add_expense_uncaught_first_sheet_error :
    (add_expense envNoTabs "Taxi" "12.50" "General" "USD" "Tarjeta Crédito" "Confirmado"
        "" "" "").1 = .error "Spreadsheet has no sheets/tabs." :=
  rfl

/-- C4 (amended): every error except one raised while resolving the first
sheet title (reached only when `sheet_name` is empty, and not wrapped by
any `try`) is caught and converted into a human-readable string marked
`✅` or `❌`; under the hypothesis that the title resolves — or is supplied
— the call always returns a string and never propagates an exception. -/
theorem add_expense_errors_caught (env : Env)
    (description amount category currency payment_method status notes sheet_name spreadsheet_id : String)
    (htitle : sheet_name ≠ "" ∨
      ∃ t, first_sheet_title env (sidOf env spreadsheet_id) = .ok t) :
    ∃ s, (add_expense env description amount category currency payment_method status notes
        sheet_name spreadsheet_id).1 = .ok s ∧
      (s.toList.head? = some '✅' ∨ s.toList.head? = some '❌') := by
  obtain ⟨sid, title, tr, heq, htr⟩ := add_expense_eq_body_of_title env description amount
    category currency payment_method status notes sheet_name spreadsheet_id htitle
  rw [heq]
  cases hparse : parsePyFloat (amtOf amount) with
  | none =>
    rw [addExpenseBody_parse_none env description amount category currency payment_method
      status notes sid title tr hparse]
    exact ⟨_, rfl, Or.inr (head?_append_left _ _ _ (by decide))⟩
  | some v =>
    cases hz : v.leZero with
    | true =>
      rw [addExpenseBody_leZero env description amount category currency payment_method
        status notes sid title tr v hparse hz]
      exact ⟨_, rfl, Or.inr (by decide)⟩
    | false =>
      exact addExpenseBody_proceed_head env description amount category currency payment_method
        status notes sid title tr v hparse hz

theorem add_expense_errors_caught_witness :
    ∃ s, (add_expense envOk "Taxi" "abc" "General" "USD" "Tarjeta Crédito" "Confirmado"
        "" "Gastos" "").1 = .ok s ∧
      (s.toList.head? = some '✅' ∨ s.toList.head? = some '❌') :=
  add_expense_errors_caught envOk "Taxi" "abc" "General" "USD" "Tarjeta Crédito" "Confirmado"
    "" "Gastos" "" (Or.inl (by decide))

/-- C5: the enum-label mapping normalizes the input by uppercasing and
replacing spaces with `'_'`, looks the key up among the enum member names,
and returns the member's display label on a hit or the fallback on a miss
(`Otro` for payment method, `Confirmado` for status); the result is always
a member of the closed label table, so the lookup never fails; in
particular `"gift card"` falls back to `Otro` and `"pendiente"` maps
case-insensitively to `Pendiente`. -/
theorem mapEnumLabel_spec :
    (∀ raw, ((PaymentMethod.fromName (enumKey raw)).getD .OTRO).value ∈
      (["Efectivo", "Tarjeta Crédito", "Tarjeta Débito", "Transferencia",
        "Billetera Digital", "Otro"] : List String)) ∧
    (∀ raw, ((ExpenseStatus.fromName (enumKey raw)).getD .CONFIRMADO).value ∈
      (["Pendiente", "Confirmado", "Reembolsable", "Imputable"] : List String)) ∧
    (∀ raw m, PaymentMethod.fromName (enumKey raw) = some m →
      ((PaymentMethod.fromName (enumKey raw)).getD .OTRO).value = m.value) ∧
    (∀ raw, PaymentMethod.fromName (enumKey raw) = none →
      ((PaymentMethod.fromName (enumKey raw)).getD .OTRO).value = "Otro") ∧
    (∀ raw m, ExpenseStatus.fromName (enumKey raw) = some m →
      ((ExpenseStatus.fromName (enumKey raw)).getD .CONFIRMADO).value = m.value) ∧
    (∀ raw, ExpenseStatus.fromName (enumKey raw) = none →
      ((ExpenseStatus.fromName (enumKey raw)).getD .CONFIRMADO).value = "Confirmado") ∧
    enumKey "gift card" = "GIFT_CARD" ∧
    ((PaymentMethod.fromName (enumKey "gift card")).getD .OTRO).value = "Otro" ∧
    enumKey "pendiente" = "PENDIENTE" ∧
    ((ExpenseStatus.fromName (enumKey "pendiente")).getD .CONFIRMADO).value = "Pendiente" := by
  refine ⟨?_, ?_, ?_, ?_, ?_, ?_, by decide, by decide, by decide, by decide⟩
  · intro raw
    cases h : PaymentMethod.fromName (enumKey raw) with
    | none => decide
    | some m => cases m <;> decide
  · intro raw
    cases h : ExpenseStatus.fromName (enumKey raw) with
    | none => decide
    | some m => cases m <;> decide
  · intro raw m h; rw [h]; rfl
  · intro raw h; rw [h]; rfl
  · intro raw m h; rw [h]; rfl
  · intro raw h; rw [h]; rfl

theorem mapEnumLabel_spec_witness :
    ((ExpenseStatus.fromName (enumKey "pendiente")).getD .CONFIRMADO).value = "Pendiente" := by
  have h := mapEnumLabel_spec.2.2.2.2.1 "pendiente" .PENDIENTE (by decide)
  simpa using h

/-- C6: deductibility is a pure lookup in the fixed category table:
`Transporte` yields `Sí`, `Alimentación` yields `No`, and every category
absent from the table — `Mascotas` among them — yields `No`; the amount
argument plays no role. -/
theorem calculate_tax_category_spec :
    (∀ v, calculate_tax_category v "Transporte" = "Sí") ∧
    (∀ v, calculate_tax_category v "Alimentación" = "No") ∧
    (∀ v cat, tax_deductible.lookup cat = none → calculate_tax_category v cat = "No") ∧
    (∀ v, calculate_tax_category v "Mascotas" = "No") := by
  refine ⟨fun v => rfl, fun v => rfl, ?_, fun v => rfl⟩
  intro v cat h
  simp [calculate_tax_category, h]

theorem calculate_tax_category_spec_witness :
    calculate_tax_category (.finite 1 0) "Mascotas" = "No" :=
  calculate_tax_category_spec.2.2.1 (.finite 1 0) "Mascotas" (by decide)

/-- C7: every row handed to the append collaborator is exactly the
12-column sequence date, receipt id, description, category, normalized
amount text, currency, payment-method label, deductible flag, status
label, time, notes, month-year — in that order. -/
theorem add_expense_row_shape (env : Env)
    (description amount category currency payment_method status notes sheet_name spreadsheet_id : String) :
    ∀ s rng row, Effect.appendRow s rng row ∈
        (add_expense env description amount category currency payment_method status notes
          sheet_name spreadsheet_id).2 →
      ∃ v, parsePyFloat (amtOf amount) = some v ∧ v.leZero = false ∧
        row = [env.dateStr,
               generate_receipt_id description (amtOf amount) (env.dateStr ++ env.timeStr),
               description, category, amtOf amount, currency,
               ((PaymentMethod.fromName (enumKey payment_method)).getD .OTRO).value,
               calculate_tax_category v category,
               ((ExpenseStatus.fromName (enumKey status)).getD .CONFIRMADO).value,
               env.timeStr, notes, env.monthYear] := by
  intro s rng row hm
  rcases add_expense_cases env description amount category currency payment_method status notes
      sheet_name spreadsheet_id with ⟨hsn, e, hft, heq⟩ | ⟨hsn, t, hft, heq⟩ | ⟨hsn, heq⟩
  · rw [heq] at hm
    simp at hm
  · rw [heq] at hm
    obtain ⟨v, hv, hz, hrow⟩ := addExpenseBody_append_mem env description amount category
      currency payment_method status notes (sidOf env spreadsheet_id) t _ (by simp) s rng row hm
    exact ⟨v, hv, hz, by rw [hrow]; rfl⟩
  · rw [heq] at hm
    obtain ⟨v, hv, hz, hrow⟩ := addExpenseBody_append_mem env description amount category
      currency payment_method status notes (sidOf env spreadsheet_id) sheet_name _ (by simp)
      s rng row hm
    exact ⟨v, hv, hz, by rw [hrow]; rfl⟩

theorem add_expense_row_shape_witness :
    ∃ v, parsePyFloat (amtOf "12.50") = some v ∧ v.leZero = false ∧
      (["2024-01-01", "9F180D15", "Taxi", "General", "12.50", "USD", "Otro", "No",
        "Confirmado", "09:00:00", "", "January 2024"] : List String) =
      [envOk.dateStr,
       generate_receipt_id "Taxi" (amtOf "12.50") (envOk.dateStr ++ envOk.timeStr),
       "Taxi", "General", amtOf "12.50", "USD",
       ((PaymentMethod.fromName (enumKey "Tarjeta Crédito")).getD .OTRO).value,
       calculate_tax_category v "General",
       ((ExpenseStatus.fromName (enumKey "Confirmado")).getD .CONFIRMADO).value,
       envOk.timeStr, "", envOk.monthYear] :=
  add_expense_row_shape envOk "Taxi" "12.50" "General" "USD" "Tarjeta Crédito" "Confirmado"
    "" "" "" "SHEET-123" "Hoja 1!A1"
    ["2024-01-01", "9F180D15", "Taxi", "General", "12.50", "USD", "Otro", "No",
     "Confirmado", "09:00:00", "", "January 2024"]
    (by decide)

/-- C8: in every call the append collaborator is invoked at most once; it
is invoked exactly once whenever the call returns the `✅` confirmation;
when an exception escapes (only the pre-validation title resolution can
raise) no append has happened; and any append that does occur happened
only after amount validation succeeded. -/
theorem add_expense_append_once (env : Env)
    (description amount category currency payment_method status notes sheet_name spreadsheet_id : String) :
    countAppend (add_expense env description amount category currency payment_method status notes
        sheet_name spreadsheet_id).2 ≤ 1 ∧
    (∀ s, (add_expense env description amount category currency payment_method status notes
        sheet_name spreadsheet_id).1 = .ok s → s.toList.head? = some '✅' →
      countAppend (add_expense env description amount category currency payment_method status notes
        sheet_name spreadsheet_id).2 = 1) ∧
    (∀ e, (add_expense env description amount category currency payment_method status notes
        sheet_name spreadsheet_id).1 = .error e →
      countAppend (add_expense env description amount category currency payment_method status notes
        sheet_name spreadsheet_id).2 = 0) ∧
    (∀ s rng row, Effect.appendRow s rng row ∈
        (add_expense env description amount category currency payment_method status notes
          sheet_name spreadsheet_id).2 →
      ∃ v, parsePyFloat (amtOf amount) = some v ∧ v.leZero = false) := by
  rcases add_expense_cases env description amount category currency payment_method status notes
      sheet_name spreadsheet_id with ⟨hsn, e, hft, heq⟩ | ⟨hsn, t, hft, heq⟩ | ⟨hsn, heq⟩
  · rw [heq]
    refine ⟨Nat.zero_le 1, ?_, fun e2 h => rfl, ?_⟩
    · intro s h
      cases h
    · intro s rng row hm
      simp at hm
  · rw [heq]
    obtain ⟨hle, hok, herr⟩ := addExpenseBody_append_count env description amount category
      currency payment_method status notes (sidOf env spreadsheet_id) t
      [Effect.getSpreadsheetMeta (sidOf env spreadsheet_id)] rfl
    refine ⟨hle, hok, herr, ?_⟩
    intro s rng row hm
    obtain ⟨v, hv, hz, _⟩ := addExpenseBody_append_mem env description amount category
      currency payment_method status notes (sidOf env spreadsheet_id) t _ (by simp) s rng row hm
    exact ⟨v, hv, hz⟩
  · rw [heq]
    obtain ⟨hle, hok, herr⟩ := addExpenseBody_append_count env description amount category
      currency payment_method status notes (sidOf env spreadsheet_id) sheet_name [] rfl
    refine ⟨hle, hok, herr, ?_⟩
    intro s rng row hm
    obtain ⟨v, hv, hz, _⟩ := addExpenseBody_append_mem env description amount category
      currency payment_method status notes (sidOf env spreadsheet_id) sheet_name _ (by simp)
      s rng row hm
    exact ⟨v, hv, hz⟩

set_option maxRecDepth 8192 in
theorem add_expense_append_once_witness :
    countAppend (add_expense envOk "Taxi" "12.50" "General" "USD" "Tarjeta Crédito" "Confirmado"
        "" "" "").2 = 1 :=
  (add_expense_append_once envOk "Taxi" "12.50" "General" "USD" "Tarjeta Crédito" "Confirmado"
      "" "" "").2.1
    "✅ GASTO REGISTRADO\n📋 Recibo: 9F180D15\n📅 2024-01-01 09:00:00\n💰 12.50 USD\n📝 Taxi\n🏷️  General\n💳 Otro\n📊 Deducible: No\n📍 Estado: Confirmado"
    rfl (by decide)

/-- C9: for the inputs `"Tarjeta Crédito"` (also the parameter's default)
and `"Tarjeta Débito"`, uppercasing preserves the accent, so the
normalized keys `TARJETA_CRÉDITO` / `TARJETA_DÉBITO` miss the enum member
names and both fall back to the label `Otro` instead of their own
canonical labels; an end-to-end call with the default payment method
records `Otro` in column G. -/
theorem payment_method_accent_fallback :
    enumKey "Tarjeta Crédito" = "TARJETA_CRÉDITO" ∧
    PaymentMethod.fromName "TARJETA_CRÉDITO" = none ∧
    PaymentMethod.TARJETA_CREDITO.value = "Tarjeta Crédito" ∧
    PaymentMethod.TARJETA_DEBITO.value = "Tarjeta Débito" ∧
    ((PaymentMethod.fromName (enumKey "Tarjeta Crédito")).getD .OTRO).value = "Otro" ∧
    ((PaymentMethod.fromName (enumKey "Tarjeta Débito")).getD .OTRO).value = "Otro" ∧
    (add_expense envOk "Taxi" "12.50").2 =
      [Effect.getSpreadsheetMeta "SHEET-123",
       Effect.appendRow "SHEET-123" "Hoja 1!A1"
         ["2024-01-01", "9F180D15", "Taxi", "General", "12.50", "USD", "Otro", "No",
          "Confirmado", "09:00:00", "", "January 2024"]] :=
  ⟨by decide, by decide, rfl, rfl, by decide, by decide, by decide⟩

/-- C10: amount validation accepts non-finite numeric strings: `"nan"`
parses to NaN whose `<= 0` comparison is `False`, and `"inf"` parses to
positive infinity, so neither input is rejected and in both cases the call
appends a row carrying the amount text `nan` / `inf` and returns the `✅`
confirmation. -/
theorem nonfinite_amounts_accepted :
    parsePyFloat (amtOf "nan") = some .nan ∧
    PyFloat.leZero .nan = false ∧
    parsePyFloat (amtOf "inf") = some (.infinity false) ∧
    PyFloat.leZero (.infinity false) = false ∧
    (add_expense envOk "Snack" "nan").1 =
      .ok "✅ GASTO REGISTRADO\n📋 Recibo: 1B48496F\n📅 2024-01-01 09:00:00\n💰 nan USD\n📝 Snack\n🏷️  General\n💳 Otro\n📊 Deducible: No\n📍 Estado: Confirmado" ∧
    (add_expense envOk "Snack" "nan").2 =
      [Effect.getSpreadsheetMeta "SHEET-123",
       Effect.appendRow "SHEET-123" "Hoja 1!A1"
         ["2024-01-01", "1B48496F", "Snack", "General", "nan", "USD", "Otro", "No",
          "Confirmado", "09:00:00", "", "January 2024"]] ∧
    (add_expense envOk "Snack" "inf").1 =
      .ok "✅ GASTO REGISTRADO\n📋 Recibo: 3A4614DD\n📅 2024-01-01 09:00:00\n💰 inf USD\n📝 Snack\n🏷️  General\n💳 Otro\n📊 Deducible: No\n📍 Estado: Confirmado" ∧
    (add_expense envOk "Snack" "inf").2 =
      [Effect.getSpreadsheetMeta "SHEET-123",
       Effect.appendRow "SHEET-123" "Hoja 1!A1"
         ["2024-01-01", "3A4614DD", "Snack", "General", "inf", "USD", "Otro", "No",
          "Confirmado", "09:00:00", "", "January 2024"]] := by
  set_option maxRecDepth 8192 in
  exact ⟨by decide, rfl, by decide, rfl, rfl, by decide, rfl, by decide⟩
